import Mathlib

/-!
Shallow embedding of the core of multi-cam.py (a dreamgaussian fork):
the training-step loss composition (GUI.train_step), the guidance gating
(GUI.prepare_train), the novel-view sampler, the texture baking
accumulation and hole filling (GUI.save_model), and the multi-view
camera/tile loading (GUI.prepare_train / GUI.load_multi_image).

Real numbers of the program are modelled as rationals; images and
per-primitive arrays as lists of rationals; the external renderer is an
uninterpreted producer of RenderOut values; the external guidance models
are uninterpreted functions passed as parameters.
-/

namespace MultiCam

/-- An image tensor, flattened to its list of scalar entries. -/
abbrev Image := List ℚ

/-- An RGB color (one atlas texel's accumulated color). -/
abbrev Color := ℚ × ℚ × ℚ

/-- Output of one call to `self.renderer.render(cam)`: the black-box
rasterizer contract `{image, alpha, viewspace_points, visibility_filter, radii}`. -/
structure RenderOut where
  image : Image
  alpha : Image
  viewspace_points : List ℚ
  visibility_filter : List Bool
  radii : List ℚ

/-- Mean squared error, `F.mse_loss(x, y)` with its default mean
reduction: mean of elementwise squared differences. -/
def mse (x y : Image) : ℚ :=
  (((x.zip y).map (fun p => (p.1 - p.2) ^ 2)).sum) / ((x.zip y).length : ℚ)

/-- The loss-weight configuration fields of `self.opt` used in train_step. -/
structure Opt where
  known_view_weight : ℚ
  known_view_mask_weight : ℚ
  mv_weight : ℚ
  mv_mask_weight : ℚ
  lambda_sd : ℚ
  lambda_zero123 : ℚ

/-- Lines 318-330: the known-view rgb and mask terms, present iff an input
image was supplied (`self.input_img_torch is not None`). `r` is step_ratio. -/
def knownViewTerm (known_view_weight known_view_mask_weight r : ℚ)
    (inputPresent : Bool) (out : RenderOut) (inputImg inputMask : Image) : ℚ :=
  if inputPresent then
    known_view_weight * r * mse out.image inputImg
      + known_view_mask_weight * r * mse out.alpha inputMask
  else 0

/-- Lines 334-352, body of the `for i in range(16)` multi-view loop.
Transcribed exactly as written: the code renders `out` from cameras[i]
but then sets `image = self.multiImagesTorch[i]` (line 339) and
`mask = self.multiMasksTorch[i]` (line 347) and feeds those to
`F.mse_loss` against `self.multiImagesTorch[i]` / `self.multiMasksTorch[i]`
themselves (lines 343-344 and 351-352); `out` is never read. -/
def mvViewTerm (mv_weight mv_mask_weight r : ℚ) (out : RenderOut)
    (refImg refMask : Image) : ℚ :=
  let image := refImg
  let mask := refMask
  mv_weight * r * mse image refImg + mv_mask_weight * r * mse mask refMask

/-- The total multi-view contribution of one training step: the sum over
the 16 fixed multi-view cameras (lines 334-352). -/
def mvTerm (mv_weight mv_mask_weight r : ℚ) (mvOut : Fin 16 → RenderOut)
    (refImgs refMasks : Fin 16 → Image) : ℚ :=
  Finset.univ.sum fun i : Fin 16 =>
    mvViewTerm mv_weight mv_mask_weight r (mvOut i) (refImgs i) (refMasks i)

/-- Line 181: `self.enable_sd = self.opt.lambda_sd > 0 and self.prompt != ""`. -/
def enable_sd (lambda_sd : ℚ) (prompt : String) : Bool :=
  decide (0 < lambda_sd) && !(prompt == "")

/-- Line 182:
`self.enable_zero123 = self.opt.lambda_zero123 > 0 and self.input_img is not None`. -/
def enable_zero123 (lambda_zero123 : ℚ) (inputPresent : Bool) : Bool :=
  decide (0 < lambda_zero123) && inputPresent

/-- The composed scalar loss of one pass of train_step (lines 315-454):
known-view term, multi-view term, then the two feature-gated guidance
terms.  The external guidance models are the uninterpreted functions
`sdTrainStep` (called as `self.guidance_sd.train_step(images, step_ratio)`,
line 449) and `zTrainStep` (called as
`self.guidance_zero123.train_step(images, vers, hors, radii, step_ratio)`,
lines 453-454); note the code multiplies each by its lambda only and
passes step_ratio as an argument. -/
def trainStepLoss (o : Opt) (r : ℚ)
    (inputPresent : Bool) (knownOut : RenderOut) (inputImg inputMask : Image)
    (mvOut : Fin 16 → RenderOut) (refImgs refMasks : Fin 16 → Image)
    (esd ez : Bool)
    (sdTrainStep : List Image → ℚ → ℚ)
    (zTrainStep : List Image → List ℤ → List ℤ → List ℚ → ℚ → ℚ)
    (images : List Image) (vers hors : List ℤ) (radii : List ℚ) : ℚ :=
  knownViewTerm o.known_view_weight o.known_view_mask_weight r inputPresent knownOut inputImg inputMask
    + mvTerm o.mv_weight o.mv_mask_weight r mvOut refImgs refMasks
    + (if esd then o.lambda_sd * sdTrainStep images r else 0)
    + (if ez then o.lambda_zero123 * zTrainStep images vers hors radii r else 0)

/-- Lines 399-401: `render_resolution = 128 if step_ratio < 0.3 else
(256 if step_ratio < 0.6 else 512)`. -/
def render_resolution (r : ℚ) : ℕ :=
  if r < 3 / 10 then 128 else if r < 6 / 10 then 256 else 512

/- ---------------------------------------------------------------- -/
/- Helper lemmas. -/

lemma zip_self_sq_sum (x : List ℚ) :
    ((x.zip x).map (fun p => (p.1 - p.2) ^ 2)).sum = 0 := by
  induction x with
  | nil => rfl
  | cons a t ih => simp [List.zip_cons_cons, ih]

lemma mse_self (x : Image) : mse x x = 0 := by
  unfold mse
  rw [zip_self_sq_sum, zero_div]

/- ---------------------------------------------------------------- -/
/- Claim theorems about the loss composition. -/

/-- Claim C1 (code evaluation).  The multi-view loss contribution of a
training step is identically zero, whatever the renders produce: the code
compares each reference tile (and mask) with itself, never with the render.
At the failing input — rendered tile `[1]` against reference tile `[0]` —
the per-view term is still 0 even though the mean-squared error between the
rendered image and the reference is 1, so the claimed comparison term is
absent from the composed loss. -/
theorem C1_mv_loss_ignores_renders :
    (∀ (w wm r : ℚ) (mvOut : Fin 16 → RenderOut) (refImgs refMasks : Fin 16 → Image),
        mvTerm w wm r mvOut refImgs refMasks = 0)
    ∧ mvViewTerm 1 1 1 ⟨[1], [1], [], [], []⟩ [0] [0] = 0
    ∧ mse [1] [0] = 1 := by
  have hview : ∀ (w wm r : ℚ) (out : RenderOut) (refImg refMask : Image),
      mvViewTerm w wm r out refImg refMask = 0 := by
    intro w wm r out refImg refMask
    simp [mvViewTerm, mse_self]
  refine ⟨?_, hview 1 1 1 _ _ _, ?_⟩
  · intro w wm r mvOut refImgs refMasks
    unfold mvTerm
    exact Finset.sum_eq_zero fun i _ => hview w wm r (mvOut i) (refImgs i) (refMasks i)
  · norm_num [mse]

/-- Claim C2 (counterexample).  Set every non-guidance weight to 0, no
known-view input, lambda_sd = 1, lambda_zero123 = 0, step_ratio r = 1/2,
and a guidance model whose train-step value is 1.  The composed loss is
1 = lambda_sd * value, not lambda_sd * r * value = 1/2 as the claim
states: no step-ratio factor multiplies the guidance terms. -/
theorem C2_counterexample :
    trainStepLoss ⟨0, 0, 0, 0, 1, 0⟩ (1 / 2) false ⟨[], [], [], [], []⟩ [] []
        (fun _ => ⟨[], [], [], [], []⟩) (fun _ => []) (fun _ => [])
        true false (fun _ _ => 1) (fun _ _ _ _ _ => 0) [] [] [] []
      = 1
    ∧ trainStepLoss ⟨0, 0, 0, 0, 1, 0⟩ (1 / 2) false ⟨[], [], [], [], []⟩ [] []
        (fun _ => ⟨[], [], [], [], []⟩) (fun _ => []) (fun _ => [])
        true false (fun _ _ => 1) (fun _ _ _ _ _ => 0) [] [] [] []
      ≠ (1 : ℚ) * (1 / 2) * ((fun (_ : List Image) (_ : ℚ) => (1 : ℚ)) [] (1 / 2)) := by
  have h : trainStepLoss ⟨0, 0, 0, 0, 1, 0⟩ (1 / 2) false ⟨[], [], [], [], []⟩ [] []
      (fun _ => ⟨[], [], [], [], []⟩) (fun _ => []) (fun _ => [])
      true false (fun _ _ => 1) (fun _ _ _ _ _ => 0) [] [] [] [] = 1 := by
    simp [trainStepLoss, knownViewTerm, mvTerm, mvViewTerm, mse_self]
  exact ⟨h, by rw [h]; norm_num⟩

/-- Claim C2 (amended).  Each enabled guidance term contributes exactly its
configured weight times the guidance train-step value computed on the
novel batch and the step ratio: enabling the SD flag changes the composed
loss by lambda_sd * sdTrainStep(images, r), and enabling the zero123 flag
changes it by lambda_zero123 * zTrainStep(images, vers, hors, radii, r);
the step ratio is passed into the guidance call, not applied as an outer
factor. -/
theorem C2_guidance_contribution (o : Opt) (r : ℚ)
    (inputPresent : Bool) (knownOut : RenderOut) (inputImg inputMask : Image)
    (mvOut : Fin 16 → RenderOut) (refImgs refMasks : Fin 16 → Image)
    (esd ez : Bool)
    (sdTrainStep : List Image → ℚ → ℚ)
    (zTrainStep : List Image → List ℤ → List ℤ → List ℚ → ℚ → ℚ)
    (images : List Image) (vers hors : List ℤ) (radii : List ℚ) :
    trainStepLoss o r inputPresent knownOut inputImg inputMask mvOut refImgs refMasks
        true ez sdTrainStep zTrainStep images vers hors radii
      - trainStepLoss o r inputPresent knownOut inputImg inputMask mvOut refImgs refMasks
        false ez sdTrainStep zTrainStep images vers hors radii
      = o.lambda_sd * sdTrainStep images r
    ∧ trainStepLoss o r inputPresent knownOut inputImg inputMask mvOut refImgs refMasks
        esd true sdTrainStep zTrainStep images vers hors radii
      - trainStepLoss o r inputPresent knownOut inputImg inputMask mvOut refImgs refMasks
        esd false sdTrainStep zTrainStep images vers hors radii
      = o.lambda_zero123 * zTrainStep images vers hors radii r := by
  unfold trainStepLoss
  constructor <;> (simp only [if_true, Bool.false_eq_true, if_false]; ring)

/-- Claim C4.  The novel-view render resolution is exactly 128 when the
step ratio is below 0.3, exactly 256 when it is in [0.3, 0.6), and exactly
512 when it is at least 0.6. -/
theorem C4_resolution_schedule (r : ℚ) :
    (r < 3 / 10 → render_resolution r = 128)
    ∧ (3 / 10 ≤ r → r < 6 / 10 → render_resolution r = 256)
    ∧ (6 / 10 ≤ r → render_resolution r = 512) := by
  unfold render_resolution
  refine ⟨fun h => ?_, fun h1 h2 => ?_, fun h => ?_⟩
  · rw [if_pos h]
  · rw [if_neg (not_lt.mpr h1), if_pos h2]
  · rw [if_neg (not_lt.mpr (by linarith)), if_neg (not_lt.mpr (by linarith))]

/-- Witness for C4 at the concrete step ratio 1/2. -/
theorem C4_witness : render_resolution (1 / 2) = 256 :=
  (C4_resolution_schedule (1 / 2)).2.1 (by norm_num) (by norm_num)

/-- Claim C5.  A guidance term is enabled iff its weight is positive and
its conditioning is present (SD: non-empty prompt; zero123: input image);
and a disabled term contributes exactly nothing: with its flag false the
composed loss does not depend on the guidance function at all (the model
is never consulted, so no error can arise from it), and with both flags
false the loss is exactly the known-view plus multi-view part. -/
theorem C5_guidance_gating :
    (∀ (l : ℚ) (p : String), enable_sd l p = true ↔ 0 < l ∧ p ≠ "")
    ∧ (∀ (l : ℚ) (inputPresent : Bool),
        enable_zero123 l inputPresent = true ↔ 0 < l ∧ inputPresent = true)
    ∧ (∀ (o : Opt) (r : ℚ) (ip : Bool) (ko : RenderOut) (ii im : Image)
        (mvOut : Fin 16 → RenderOut) (refImgs refMasks : Fin 16 → Image) (ez : Bool)
        (sd sd' : List Image → ℚ → ℚ)
        (z z' : List Image → List ℤ → List ℤ → List ℚ → ℚ → ℚ)
        (images : List Image) (vers hors : List ℤ) (radii : List ℚ),
        trainStepLoss o r ip ko ii im mvOut refImgs refMasks false ez sd z images vers hors radii
          = trainStepLoss o r ip ko ii im mvOut refImgs refMasks false ez sd' z images vers hors radii
        ∧ trainStepLoss o r ip ko ii im mvOut refImgs refMasks false false sd z images vers hors radii
          = trainStepLoss o r ip ko ii im mvOut refImgs refMasks false false sd z' images vers hors radii
        ∧ trainStepLoss o r ip ko ii im mvOut refImgs refMasks false false sd z images vers hors radii
          = knownViewTerm o.known_view_weight o.known_view_mask_weight r ip ko ii im
            + mvTerm o.mv_weight o.mv_mask_weight r mvOut refImgs refMasks) := by
  refine ⟨?_, ?_, ?_⟩
  · intro l p
    simp [enable_sd]
  · intro l inputPresent
    simp [enable_zero123]
  · intro o r ip ko ii im mvOut refImgs refMasks ez sd sd' z z' images vers hors radii
    unfold trainStepLoss
    refine ⟨rfl, rfl, by simp⟩

/-- Witness for C5: with weight 1 and prompt "cat" the SD term is enabled. -/
theorem C5_witness : enable_sd 1 ("cat") = true :=
  (C5_guidance_gating.1 1 ("cat")).mpr ⟨by norm_num, by decide⟩

/- ---------------------------------------------------------------- -/
/- Novel-view elevation sampling (train_step lines 404-412). -/

/-- Line 405-406:
`min_ver = max(min(-30, -30 - self.opt.elevation), -80 - self.opt.elevation)`. -/
def min_ver (elevation : ℤ) : ℤ :=
  max (min (-30) (-30 - elevation)) (-80 - elevation)

/-- Line 407-408:
`max_ver = min(max(30, 30 - self.opt.elevation), 80 - self.opt.elevation)`. -/
def max_ver (elevation : ℤ) : ℤ :=
  min (max 30 (30 - elevation)) (80 - elevation)

/-- Line 412: `ver = np.random.randint(min_ver, max_ver)` draws an integer
from the half-open range [min_ver, max_ver): the upper bound is exclusive.
`attainable_ver E v` holds iff offset `v` can be drawn at base elevation E. -/
def attainable_ver (elevation v : ℤ) : Prop :=
  min_ver elevation ≤ v ∧ v < max_ver elevation

instance (elevation v : ℤ) : Decidable (attainable_ver elevation v) :=
  inferInstanceAs (Decidable (min_ver elevation ≤ v ∧ v < max_ver elevation))

/-- Part (a) of claim C3 holds: every attainable absolute elevation
(base + offset, line 420: `orbit_camera(self.opt.elevation + ver, ...)`)
lies within [-80, 80] — in fact within [-80, 79]. -/
theorem attainable_abs_bounds (elevation v : ℤ)
    (h : attainable_ver elevation v) :
    -80 ≤ elevation + v ∧ elevation + v ≤ 79 := by
  obtain ⟨h1, h2⟩ := h
  have hlo : -80 - elevation ≤ v :=
    le_trans (le_max_right _ _) h1
  have hhi : v < 80 - elevation :=
    lt_of_lt_of_le h2 (min_le_right _ _)
  omega

/-- Closed corollary of `attainable_abs_bounds` at elevation 10, offset 0. -/
theorem attainable_abs_bounds_witness :
    attainable_ver 10 0 ∧ -80 ≤ (10 : ℤ) + 0 ∧ (10 : ℤ) + 0 ≤ 79 :=
  ⟨by decide, attainable_abs_bounds 10 0 (by decide)⟩

/-- Claim C3 (code evaluation at the failing input).  At base elevation
E = 0 the sampling range is [min_ver, max_ver) = [-30, 30), so the offsets
-30 and 29 are attainable but +30 — and hence the absolute elevation
+30 degrees — is not, although the code comment on line 404 promises the
range "always cover [-30, 30]".  The exclusive upper bound of
`np.random.randint` cuts the claimed interval short by one degree. -/
theorem C3_elevation_cover_gap :
    min_ver 0 = -30 ∧ max_ver 0 = 30
    ∧ attainable_ver 0 (-30) ∧ attainable_ver 0 29
    ∧ ¬ attainable_ver 0 30 := by
  decide

/- ---------------------------------------------------------------- -/
/- Texture baking accumulation (save_model lines 763-776). -/

/-- One atlas texel's state: accumulated color and accumulated count
(one cell of the `albedo` and `cnt` arrays). -/
structure Texel where
  albedo : Color
  cnt : ℚ

/-- Lines 774-776, restricted to one texel: the update mask is
`cnt.squeeze(-1) < 0.1`, and under it both the color and the count
accumulate the current viewpoint's contribution
(`albedo[mask] += cur_albedo[mask]; cnt[mask] += cur_cnt[mask]`). -/
def bakeStep (s cur : Texel) : Texel :=
  if s.cnt < 1 / 10 then
    { albedo := s.albedo + cur.albedo, cnt := s.cnt + cur.cnt }
  else s

/-- Folding the per-viewpoint contributions, in the fixed iteration order
of the `for ver, hor in zip(vers, hors)` loop (line 703). -/
def bakeViews (s : Texel) (views : List Texel) : Texel :=
  views.foldl bakeStep s

lemma bakeViews_fixed (t : Texel) (h : 1 / 10 ≤ t.cnt) :
    ∀ l : List Texel, l.foldl bakeStep t = t := by
  intro l
  induction l with
  | nil => rfl
  | cons v l ih =>
    rw [List.foldl_cons]
    have hv : bakeStep t v = t := by
      unfold bakeStep
      rw [if_neg (not_lt.mpr h)]
    rw [hv, ih]

/-- Claim C6.  Once a texel's accumulated count has reached the
significance threshold 0.1 after processing some prefix of the viewpoint
order, every later viewpoint leaves both its accumulated color and its
count unchanged: the first sufficient view wins. -/
theorem C6_first_sufficient_view_wins (s : Texel) (pre post : List Texel)
    (h : 1 / 10 ≤ (bakeViews s pre).cnt) :
    bakeViews s (pre ++ post) = bakeViews s pre := by
  unfold bakeViews
  rw [List.foldl_append]
  exact bakeViews_fixed _ h post

/-- Witness for C6: a texel already holding count 1 is untouched by a
later unit-weight white contribution. -/
theorem C6_witness :
    bakeViews ⟨(0, 0, 0), 1⟩ ([] ++ [⟨(1, 1, 1), 1⟩]) = bakeViews ⟨(0, 0, 0), 1⟩ [] :=
  C6_first_sufficient_view_wins ⟨(0, 0, 0), 1⟩ [] [⟨(1, 1, 1), 1⟩]
    (by norm_num [bakeViews])

/- ---------------------------------------------------------------- -/
/- Densification input threading (train_step lines 318-479). -/

/-- The Python variable `out` as successively overwritten inside one pass
of train_step: line 320 (known view, only if an input image is present),
line 336 (each of the 16 multi-view renders), line 434 (each novel-view
sample of the batch).  Each assignment discards the previous value. -/
def outAfterRenders (inputPresent : Bool) (knownOut : RenderOut)
    (mvOut : ℕ → RenderOut) (novelOut : ℕ → RenderOut)
    (batch_size : ℕ) : Option RenderOut :=
  let o0 : Option RenderOut := if inputPresent then some knownOut else none
  let o1 := (List.range 16).foldl (fun _ i => some (mvOut i)) o0
  (List.range batch_size).foldl (fun _ j => some (novelOut j)) o1

/-- Lines 472-479: the densification statistics (max_radii2D update and
add_densification_stats) read `out["viewspace_points"]`,
`out["visibility_filter"]`, `out["radii"]` only when
`density_start_iter <= step <= density_end_iter`; this is the render
output those statistics are computed from. -/
def densifyInput (step density_start_iter density_end_iter : ℕ)
    (inputPresent : Bool) (knownOut : RenderOut)
    (mvOut novelOut : ℕ → RenderOut) (batch_size : ℕ) : Option RenderOut :=
  if density_start_iter ≤ step ∧ step ≤ density_end_iter then
    outAfterRenders inputPresent knownOut mvOut novelOut batch_size
  else none

lemma range_foldl_last {α : Type} (g : ℕ → α) (o : Option α) {n : ℕ}
    (hn : 1 ≤ n) :
    (List.range n).foldl (fun _ j => some (g j)) o = some (g (n - 1)) := by
  obtain ⟨m, rfl⟩ : ∃ m, n = m + 1 := ⟨n - 1, by omega⟩
  rw [List.range_succ, List.foldl_append]
  simp

/-- Claim C9.  For a step inside the densification window and a non-empty
novel batch, the render output consumed by the densification statistics is
exactly that of the last novel-view sample: the result does not depend on
the known-view render, on any of the 16 multi-view renders, or on any
earlier novel-view sample. -/
theorem C9_densify_uses_last_novel (step ds de : ℕ) (inputPresent : Bool)
    (knownOut : RenderOut) (mvOut novelOut : ℕ → RenderOut) (b : ℕ)
    (h1 : ds ≤ step) (h2 : step ≤ de) (hb : 1 ≤ b) :
    densifyInput step ds de inputPresent knownOut mvOut novelOut b
      = some (novelOut (b - 1)) := by
  unfold densifyInput outAfterRenders
  rw [if_pos ⟨h1, h2⟩]
  exact range_foldl_last novelOut _ hb

/-- Witness for C9: step 5 in window [1, 10], batch of two novel samples
whose outputs are tagged by their index; the densification input is the
second (index 1) sample, not the known-view output. -/
theorem C9_witness :
    densifyInput 5 1 10 true ⟨[], [], [], [], []⟩
        (fun _ => ⟨[], [], [], [], []⟩)
        (fun j => ⟨[(j : ℚ)], [], [], [], []⟩) 2
      = some ⟨[(1 : ℚ)], [], [], [], []⟩ :=
  C9_densify_uses_last_novel 5 1 10 true ⟨[], [], [], [], []⟩
    (fun _ => ⟨[], [], [], [], []⟩) (fun j => ⟨[(j : ℚ)], [], [], [], []⟩) 2
    (by norm_num) (by norm_num) (by norm_num)

/- ---------------------------------------------------------------- -/
/- Hole filling in the texture atlas (save_model lines 786-806). -/

/-- A pixel coordinate in the texture atlas (a row of `search_coords` or
`inpaint_coords`, line 797-798). -/
abbrev Coord := ℤ × ℤ

/-- Squared Euclidean pixel distance; minimizing it is minimizing the
Euclidean distance used by the kd-tree nearest-neighbor query. -/
def sqdist (p q : Coord) : ℤ :=
  (p.1 - q.1) ^ 2 + (p.2 - q.2) ^ 2

/-- The running-minimum fold underlying the 1-nearest-neighbor query:
keep the candidate strictly closer to `p`, the earlier one on ties. -/
def nnFold (p b : Coord) (l : List Coord) : Coord :=
  l.foldl (fun best q => if sqdist p q < sqdist p best then q else best) b

/-- The query `NearestNeighbors(n_neighbors=1).kneighbors` on the donor
set fitted at lines 800-803, modelled as the exact single nearest
neighbor under Euclidean distance (ties resolved deterministically by
list order — the library leaves the equidistant case
implementation-defined). -/
def nearestNeighbor (p : Coord) : List Coord → Option Coord
  | [] => none
  | d :: ds => some (nnFold p d ds)

/-- Lines 805-806: every inpaint texel receives the albedo of the donor
texel returned by the nearest-neighbor query
(`albedo[tuple(inpaint_coords.T)] = albedo[tuple(search_coords[indices[:, 0]].T)]`);
all other texels keep their value. -/
def inpaintFill (search_coords inpaint_coords : List Coord)
    (albedo : Coord → Color) : Coord → Color :=
  fun q =>
    if q ∈ inpaint_coords then
      match nearestNeighbor q search_coords with
      | some nn => albedo nn
      | none => albedo q
    else albedo q

/-- Lines 800-806 including the external library's contract on the fit
step: `sklearn` NearestNeighbors.fit rejects an empty sample set (it
raises on zero samples), and the code performs it unconditionally — there
is no emptiness guard anywhere in save_model.  So an empty donor region
produces an error; a non-empty one produces the filled atlas. -/
def inpaintAtlas (search_coords inpaint_coords : List Coord)
    (albedo : Coord → Color) : Except String (Coord → Color) :=
  if search_coords.isEmpty then
    Except.error ("NearestNeighbors.fit requires at least 1 sample")
  else
    Except.ok (inpaintFill search_coords inpaint_coords albedo)

lemma nnFold_mem (p b : Coord) (l : List Coord) : nnFold p b l ∈ b :: l := by
  induction l generalizing b with
  | nil => simp [nnFold]
  | cons q l ih =>
    have hstep : nnFold p b (q :: l)
        = nnFold p (if sqdist p q < sqdist p b then q else b) l := by
      simp [nnFold]
    rw [hstep]
    rcases List.mem_cons.mp (ih (if sqdist p q < sqdist p b then q else b)) with h | h
    · rw [h]
      split
      · exact List.mem_cons_of_mem _ (List.mem_cons_self _ _)
      · exact List.mem_cons_self _ _
    · exact List.mem_cons_of_mem _ (List.mem_cons_of_mem _ h)

lemma nnFold_min (p b : Coord) (l : List Coord) :
    ∀ q ∈ b :: l, sqdist p (nnFold p b l) ≤ sqdist p q := by
  induction l generalizing b with
  | nil =>
    intro q hq
    rcases List.mem_cons.mp hq with h | h
    · rw [h]; exact le_refl _
    · cases h
  | cons c l ih =>
    intro q hq
    have hstep : nnFold p b (c :: l)
        = nnFold p (if sqdist p c < sqdist p b then c else b) l := by
      simp [nnFold]
    have hb : sqdist p (if sqdist p c < sqdist p b then c else b) ≤ sqdist p b := by
      split
      · next h => exact le_of_lt h
      · exact le_refl _
    have hc : sqdist p (if sqdist p c < sqdist p b then c else b) ≤ sqdist p c := by
      split
      · exact le_refl _
      · next h => exact le_of_not_lt h
    have hhead : sqdist p (nnFold p (if sqdist p c < sqdist p b then c else b) l)
        ≤ sqdist p (if sqdist p c < sqdist p b then c else b) :=
      ih _ _ (List.mem_cons_self _ _)
    rcases List.mem_cons.mp hq with h | h
    · rw [hstep, h]
      exact le_trans hhead hb
    · rcases List.mem_cons.mp h with h' | h'
      · rw [hstep, h']
        exact le_trans hhead hc
      · rw [hstep]
        exact ih _ _ (List.mem_cons_of_mem _ h')

/-- Claim C7.  A hole texel in the fill frontier whose strictly nearest
donor (under Euclidean pixel distance) is `d` receives exactly the color
of `d`; in particular a donor at distance 1 beats one at distance 2. -/
theorem C7_nearest_donor_fill (search_coords inpaint_coords : List Coord)
    (albedo : Coord → Color) (p d : Coord)
    (hp : p ∈ inpaint_coords) (hd : d ∈ search_coords)
    (hmin : ∀ q ∈ search_coords, q ≠ d → sqdist p d < sqdist p q) :
    inpaintFill search_coords inpaint_coords albedo p = albedo d := by
  cases search_coords with
  | nil => cases hd
  | cons b ds =>
    have hres : nnFold p b ds = d := by
      by_contra hne
      have hlt := hmin (nnFold p b ds) (nnFold_mem p b ds) hne
      have hle := nnFold_min p b ds d hd
      exact absurd hlt (not_lt.mpr hle)
    simp only [inpaintFill, if_pos hp, nearestNeighbor, hres]

/-- The concrete atlas coloring of the C7 witness scenario: the distance-1
donor `(0, 1)` is red, everything else black. -/
def albW : Coord → Color :=
  fun q => if q = ((0 : ℤ), (1 : ℤ)) then ((1 : ℚ), 0, 0) else (0, 0, 0)

/-- Witness for C7: hole `(0,0)` with donors `(0,2)` (distance 2, listed
first) and `(0,1)` (distance 1) takes the distance-1 donor's color. -/
theorem C7_witness :
    inpaintFill [((0 : ℤ), (2 : ℤ)), ((0 : ℤ), (1 : ℤ))]
        [((0 : ℤ), (0 : ℤ))] albW ((0 : ℤ), (0 : ℤ))
      = albW ((0 : ℤ), (1 : ℤ)) :=
  C7_nearest_donor_fill [((0 : ℤ), (2 : ℤ)), ((0 : ℤ), (1 : ℤ))]
    [((0 : ℤ), (0 : ℤ))] albW ((0 : ℤ), (0 : ℤ)) ((0 : ℤ), (1 : ℤ))
    (by decide) (by decide) (by decide)

/-- Claim C8 (counterexample).  With an empty donor region and hole
`(0,0)`, the hole-filling step does not return the unchanged atlas — it
fails: the unguarded nearest-neighbor fit on zero donors errors out, so
there is no no-op short circuit. -/
theorem C8_counterexample :
    inpaintAtlas [] [((0 : ℤ), (0 : ℤ))] albW
      = Except.error ("NearestNeighbors.fit requires at least 1 sample")
    ∧ inpaintAtlas [] [((0 : ℤ), (0 : ℤ))] albW ≠ Except.ok albW := by
  constructor
  · rfl
  · intro h
    exact Except.noConfusion h

/-- Claim C8 (amended).  On an empty donor region the hole-filling step
raises from the nearest-neighbor fit (it neither no-ops nor returns a
modified atlas); whenever at least one donor texel exists it returns the
filled atlas without error. -/
theorem C8_empty_donor_errors :
    (∀ (inpaint_coords : List Coord) (albedo : Coord → Color),
        inpaintAtlas [] inpaint_coords albedo
          = Except.error ("NearestNeighbors.fit requires at least 1 sample"))
    ∧ ∀ (d : Coord) (ds : List Coord) (inpaint_coords : List Coord)
        (albedo : Coord → Color),
        inpaintAtlas (d :: ds) inpaint_coords albedo
          = Except.ok (inpaintFill (d :: ds) inpaint_coords albedo) := by
  exact ⟨fun _ _ => rfl, fun _ _ _ _ => rfl⟩

/- ---------------------------------------------------------------- -/
/- Multi-view camera rig and reference tiles
   (prepare_train lines 144-178, load_multi_image lines 604-615,
   train_step lines 333-352). -/

/-- One fixed multi-view camera as constructed in prepare_train lines
150-161: the pose is `orbit_camera(self.opt.elevation, 2*pi*i/360,
self.opt.radius)` — the irrational angle `2*pi*i/360` is represented by
its integer index `i`; the archive's own az/pose entries are read but
overwritten, they only determine how many cameras are built. -/
structure MiniCamP where
  elevation : ℚ
  angle_index : ℕ
  radius : ℚ

/-- Lines 149-163: `for i, (az, pose) in enumerate(zip(azs, poses)):
cameras.append(MiniCam(orbit_camera(...), ...))` — one camera per entry of
the zipped archive sequences. -/
def buildCameras (elevation radius : ℚ) (azs poses : List ℚ) : List MiniCamP :=
  ((azs.zip poses).enum).map fun pr =>
    { elevation := elevation, angle_index := pr.1, radius := radius }

/-- The camera accesses of train_step's multi-view loop: `cameras[i]` for
`i in range(n)` (line 335 with n = 16).  Python list indexing raises
IndexError out of range, modelled by `none`. -/
def mvCamAccess (cameras : List MiniCamP) : ℕ → Option (List MiniCamP)
  | 0 => some []
  | n + 1 =>
    match mvCamAccess cameras n, cameras.get? n with
    | some acc, some c => some (acc ++ [c])
    | _, _ => none

/-- Line 615: `img[:, i*256:(i+1)*256, :]` — a numpy basic slice over the
column axis; numpy clamps slice bounds to the array extent instead of
raising, which `take`/`drop` reproduce exactly. -/
def tileSlice (img : List ℚ) (i : ℕ) : List ℚ :=
  (img.take ((i + 1) * 256)).drop (i * 256)

/-- Lines 613-615: load_multi_image always produces exactly 16 tiles,
whatever the image width. -/
def load_multi_image (img : List ℚ) : List (List ℚ) :=
  (List.range 16).map (tileSlice img)

lemma mvCamAccess_isSome (cameras : List MiniCamP) :
    ∀ n : ℕ, (mvCamAccess cameras n).isSome ↔ n ≤ cameras.length := by
  intro n
  induction n with
  | zero => simp [mvCamAccess]
  | succ m ih =>
    have hget : (cameras.get? m).isSome ↔ m < cameras.length := by
      rw [Option.isSome_iff_ne_none, ne_eq, List.get?_eq_none]
      omega
    cases hacc : mvCamAccess cameras m <;> cases hc : cameras.get? m <;>
      rw [hacc] at ih <;> rw [hc] at hget <;>
      simp only [mvCamAccess, hacc, hc] <;> simp_all <;> omega

lemma tileSlice_length (img : List ℚ) (i : ℕ) :
    (tileSlice img i).length = min ((i + 1) * 256) img.length - i * 256 := by
  simp [tileSlice]

/-- Claim C10 (amended).  prepare_train builds one camera per entry of the
zipped pose archive, and the 16-iteration camera loop of train_step
succeeds iff the archive yielded at least 16 cameras — with fewer it hits
an index error.  load_multi_image, however, always yields exactly 16
tiles by clamped slicing: a tile's width is min((i+1)*256, W) - i*256, so
an image narrower than 4096 columns gives truncated (possibly empty)
tiles rather than an index error. -/
theorem C10_fixed_sixteen_interface :
    (∀ (elevation radius : ℚ) (azs poses : List ℚ),
        (buildCameras elevation radius azs poses).length
          = min azs.length poses.length)
    ∧ (∀ cameras : List MiniCamP,
        (mvCamAccess cameras 16).isSome ↔ 16 ≤ cameras.length)
    ∧ (∀ img : List ℚ, (load_multi_image img).length = 16)
    ∧ (∀ (img : List ℚ) (i : ℕ),
        (tileSlice img i).length = min ((i + 1) * 256) img.length - i * 256) := by
  refine ⟨?_, ?_, ?_, tileSlice_length⟩
  · intro elevation radius azs poses
    simp [buildCameras]
  · intro cameras
    exact mvCamAccess_isSome cameras 16
  · intro img
    simp only [load_multi_image, List.length_map, List.length_range]

/-- Claim C10 (counterexample).  An image 3940 columns wide has fewer
than 16 tiles of width 256 (tile 15 is only 100 columns), yet the slicing
loop of load_multi_image still returns 16 tiles, every one of them
non-empty — the step degrades instead of failing with an index error. -/
theorem C10_counterexample :
    (load_multi_image (List.replicate 3940 0)).length = 16
    ∧ (tileSlice (List.replicate 3940 0) 15).length = 100
    ∧ (tileSlice (List.replicate 3940 0) 15).length ≠ 256
    ∧ (tileSlice (List.replicate 3940 0) 15).length ≠ 0 := by
  have hlen : (tileSlice (List.replicate 3940 (0 : ℚ)) 15).length = 100 := by
    rw [tileSlice_length, List.length_replicate]
    omega
  exact ⟨by simp only [load_multi_image, List.length_map, List.length_range],
    hlen, by rw [hlen]; norm_num, by rw [hlen]; norm_num⟩

end MultiCam
